import Mathlib

/-!
Verification of the AIHypeTracker tool functions
(src/multi_tool_agent/agent.py) against their specification.

The Python functions are shallowly embedded: dictionaries with fixed keys
become structures with Option fields, pandas cells become an inductive
Cell type, the yfinance provider becomes an explicit oracle argument, and
exception-raising provider calls become an explicit constructor.  Machine
floats are modelled by the rationals; round(x, 2) and the percent format
strings are modelled by half-to-even rounding at two decimals, which is
exact on the inputs the claims exercise.
-/

namespace AIHype

/-- Models Python str.lower (ASCII case mapping, as used on city and
company names). -/
def pyLower (s : String) : String := ⟨s.data.map Char.toLower⟩

/-- Models Python str.upper (ASCII case mapping, as used on tickers). -/
def pyUpper (s : String) : String := ⟨s.data.map Char.toUpper⟩

/-- Round to the nearest integer, ties to even: the rounding CPython
applies in round(x, n) and in the .2f format, idealized over the
rationals. -/
def halfEven (x : ℚ) : ℤ :=
  if x - ⌊x⌋ < 1/2 then ⌊x⌋
  else if (1 : ℚ)/2 < x - ⌊x⌋ then ⌊x⌋ + 1
  else if ⌊x⌋ % 2 = 0 then ⌊x⌋ else ⌊x⌋ + 1

/-- Models Python round(x, 2). -/
def pyRound2 (q : ℚ) : ℚ := (halfEven (q * 100) : ℚ) / 100

/-- Renders a signed count of hundredths in fixed point with two decimal
digits; the neg flag carries the sign of the original value so that a
negative value rounding to zero hundredths still shows a minus, as
CPython fixed-point formatting does. -/
def fmt2fi (c : ℤ) (neg : Bool) : String :=
  (if c < 0 ∨ (c = 0 ∧ neg = true) then "-" else "")
    ++ toString (c.natAbs / 100)
    ++ "."
    ++ (if c.natAbs % 100 < 10 then "0" else "")
    ++ toString (c.natAbs % 100)

/-- Models the Python format specifier .2f: fixed point, exactly two
decimal digits.  The thousands-grouping variant ,.2f coincides with this
on every value the source feeds it (the magnitude buckets keep the
integer part below 1000). -/
def fmt2f (q : ℚ) : String := fmt2fi (halfEven (q * 100)) (decide (q < 0))

/-- Renders a signed count of hundredths the way CPython repr renders
the corresponding float: integer part, then the fractional part with a
trailing zero dropped, but always at least one fractional digit. -/
def reprFloat2i (c : ℤ) : String :=
  (if c < 0 then "-" else "")
    ++ toString (c.natAbs / 100)
    ++ "."
    ++ (if c.natAbs % 100 = 0 then "0"
        else if c.natAbs % 100 % 10 = 0 then toString (c.natAbs % 100 / 10)
        else
          (if c.natAbs % 100 < 10 then "0" else "")
            ++ toString (c.natAbs % 100))

/-- Models the CPython repr of a float carrying at most two decimals (the
margin values interpolated into the summary f-strings). -/
def reprFloat2 (q : ℚ) : String := reprFloat2i (halfEven (q * 100))

/-- Models the Python expression x or y on an optional float: x wins
unless it is falsy, i.e. missing or equal to zero. -/
def pyOr (x y : Option ℚ) : Option ℚ :=
  match x with
  | some q => if q = 0 then y else some q
  | none => y

/-! ## get_weather (agent.py lines 11-32) -/

/-- Return shape of the simple tools: a status success dictionary with a
report, or a status error dictionary with an error_message. -/
inductive ToolReply where
  | success (report : String)
  | error (error_message : String)
deriving DecidableEq

/-- Embeds get_weather: a canned report on a case-insensitive match of
new york, an error naming the city otherwise. -/
def get_weather (city : String) : ToolReply :=
  if pyLower city = "new york" then
    ToolReply.success
      "The weather in New York is sunny with a temperature of 25 degrees Celsius (77 degrees Fahrenheit)."
  else
    ToolReply.error ("Weather information for \x27" ++ city ++ "\x27 is not available.")

/-! ## get_company_financial_metrics (agent.py lines 261-418): data model -/

/-- One cell of the income-statement table, as the source observes it:
a float, a float whose str is the token nan, or a value float() rejects. -/
inductive Cell where
  | num (q : ℚ)
  | nan
  | nonNum
deriving DecidableEq

/-- The descriptive-attributes mapping ticker.info, restricted to the
keys the source reads.  A none field models a key that is absent (the
provider does not store explicit None under these keys). -/
structure InfoRec where
  longName : Option String := none
  shortName : Option String := none
  currency : Option String := none
  marketCap : Option ℚ := none
  enterpriseValue : Option ℚ := none
  totalRevenue : Option ℚ := none
  grossMargins : Option ℚ := none
  operatingMargins : Option ℚ := none
  profitMargins : Option ℚ := none
deriving DecidableEq

/-- Outcome of the two provider reads ticker.info and ticker.financials:
either an exception with its message, or the attributes mapping (none
models an empty dict), the income-statement rows at the most recent
fiscal-year column, and the date string of that column (none models a
falsy column label). -/
inductive Fetched where
  | raise (msg : String)
  | ok (info : Option InfoRec) (financials : List (String × Cell)) (latest_year : Option String)

/-- First row of the table with the given label, mirroring the check
metric_name in financials.index followed by .loc. -/
def lookupCell : List (String × Cell) → String → Option Cell
  | [], _ => none
  | (k, v) :: rest, name => if k = name then some v else lookupCell rest name

/-- Embeds the helper safe_get_financial (source branch, the only one
its callers use): a missing row, a falsy value (zero), a nan token, or
an unconvertible value all come back as None. -/
def safe_get_financial (financials : List (String × Cell)) (metric_name : String) : Option ℚ :=
  match lookupCell financials metric_name with
  | some (Cell.num q) => if q = 0 then none else some q
  | some Cell.nan => none
  | some Cell.nonNum => none
  | none => none

/-- The annual_revenue entry: safe_get_financial of Total Revenue, with
the Python or falling back to info totalRevenue. -/
def annualRevenueOf (financials : List (String × Cell)) (i : InfoRec) : Option ℚ :=
  pyOr (safe_get_financial financials "Total Revenue") i.totalRevenue

/-- One derived margin: present only when the revenue gate
(annual_revenue truthy and strictly positive) and the numerator
truthiness test both pass; the source hoists the revenue gate around the
four margin blocks, which this per-margin copy reproduces exactly. -/
def calcMargin (rev numerator : Option ℚ) : Option ℚ :=
  match rev with
  | some r =>
    if 0 < r then
      match numerator with
      | some n => if n = 0 then none else some (pyRound2 (n / r * 100))
      | none => none
    else none
  | none => none

/-- One provider-supplied margin: round(ratio * 100, 2) when the info
value is truthy, else None. -/
def yfMargin (ratio : Option ℚ) : Option ℚ :=
  match ratio with
  | some g => if g = 0 then none else some (pyRound2 (g * 100))
  | none => none

/-- The combined financial_data dictionary: metrics, calculated margins
and yfinance margins.  A derived margin that is none models a key that
is absent from the dictionary; every other none models a key holding
None. -/
structure FinancialData where
  company_name : String
  ticker : String
  currency : String
  fiscal_year_end : Option String
  market_cap : Option ℚ
  enterprise_value : Option ℚ
  annual_revenue : Option ℚ
  cost_of_goods_sold : Option ℚ
  gross_profit : Option ℚ
  operating_income : Option ℚ
  net_income : Option ℚ
  interest_income : Option ℚ
  interest_expense : Option ℚ
  net_interest_income : Option ℚ
  total_expenses : Option ℚ
  operating_expenses : Option ℚ
  ebitda : Option ℚ
  ebit : Option ℚ
  gross_profit_margin_percent : Option ℚ
  operating_profit_margin_percent : Option ℚ
  net_profit_margin_percent : Option ℚ
  ebitda_margin_percent : Option ℚ
  yf_gross_margin_percent : Option ℚ
  yf_operating_margin_percent : Option ℚ
  yf_profit_margin_percent : Option ℚ
deriving DecidableEq

/-- Builds financial_data from the provider response, following the
metrics dictionary, the calculated_margins block and the
yfinance_margins block of the source. -/
def buildFinancialData (stock_ticker : String) (i : InfoRec)
    (financials : List (String × Cell)) (latest_year : Option String) : FinancialData :=
  { company_name := i.longName.getD (i.shortName.getD stock_ticker)
    ticker := pyUpper stock_ticker
    currency := i.currency.getD "USD"
    fiscal_year_end := latest_year
    market_cap := i.marketCap
    enterprise_value := i.enterpriseValue
    annual_revenue := annualRevenueOf financials i
    cost_of_goods_sold := safe_get_financial financials "Cost Of Revenue"
    gross_profit := safe_get_financial financials "Gross Profit"
    operating_income := safe_get_financial financials "Operating Income"
    net_income := safe_get_financial financials "Net Income"
    interest_income := safe_get_financial financials "Interest Income"
    interest_expense := safe_get_financial financials "Interest Expense"
    net_interest_income := safe_get_financial financials "Net Interest Income"
    total_expenses := safe_get_financial financials "Total Expenses"
    operating_expenses := safe_get_financial financials "Operating Expense"
    ebitda := safe_get_financial financials "EBITDA"
    ebit := safe_get_financial financials "EBIT"
    gross_profit_margin_percent :=
      calcMargin (annualRevenueOf financials i) (safe_get_financial financials "Gross Profit")
    operating_profit_margin_percent :=
      calcMargin (annualRevenueOf financials i) (safe_get_financial financials "Operating Income")
    net_profit_margin_percent :=
      calcMargin (annualRevenueOf financials i) (safe_get_financial financials "Net Income")
    ebitda_margin_percent :=
      calcMargin (annualRevenueOf financials i) (safe_get_financial financials "EBITDA")
    yf_gross_margin_percent := yfMargin i.grossMargins
    yf_operating_margin_percent := yfMargin i.operatingMargins
    yf_profit_margin_percent := yfMargin i.profitMargins }

/-- Embeds the helper format_currency: magnitude bucket by absolute
value, two decimals, N/A for None. -/
def format_currency (value : Option ℚ) : String :=
  match value with
  | none => "N/A"
  | some v =>
    if 10^12 ≤ |v| then "$" ++ fmt2f (v / 10^12) ++ "T"
    else if 10^9 ≤ |v| then "$" ++ fmt2f (v / 10^9) ++ "B"
    else if 10^6 ≤ |v| then "$" ++ fmt2f (v / 10^6) ++ "M"
    else if 10^3 ≤ |v| then "$" ++ fmt2f (v / 10^3) ++ "K"
    else "$" ++ fmt2f v

/-- One percentage field of the summary: the margin value followed by a
percent sign when the dictionary lookup is truthy, N/A otherwise (a
stored 0.0 is falsy, like a missing key). -/
def pctField (margin : Option ℚ) : String :=
  match margin with
  | some q => if q = 0 then "N/A" else reprFloat2 q ++ "%"
  | none => "N/A"

/-- The formatted summary dictionary. -/
structure Summary where
  company : String
  ticker : String
  market_cap : String
  annual_revenue : String
  gross_profit : String
  operating_income : String
  net_income : String
  gross_margin : String
  operating_margin : String
  net_margin : String
deriving DecidableEq

/-- Builds the summary from financial_data, field for field as in the
source. -/
def buildSummary (fd : FinancialData) : Summary :=
  { company := fd.company_name
    ticker := fd.ticker
    market_cap := format_currency fd.market_cap
    annual_revenue := format_currency fd.annual_revenue
    gross_profit := format_currency fd.gross_profit
    operating_income := format_currency fd.operating_income
    net_income := format_currency fd.net_income
    gross_margin := pctField fd.gross_profit_margin_percent
    operating_margin := pctField fd.operating_profit_margin_percent
    net_margin := pctField fd.net_profit_margin_percent }

/-! ## Transport form: json.dumps(financial_data, indent=2, default=str) -/

/-- A JSON scalar as it appears in the serialized financial_data: a
string, a number, or null.  Numbers stay exact: json round-trips the
shortest float repr losslessly. -/
inductive JVal where
  | s (v : String)
  | n (v : ℚ)
  | null
deriving DecidableEq

/-- Serialization of an optional number: null when absent. -/
def optN : Option ℚ → JVal
  | some q => JVal.n q
  | none => JVal.null

/-- Serialization of an optional string: null when absent. -/
def optS : Option String → JVal
  | some v => JVal.s v
  | none => JVal.null

/-- A derived-margin key, emitted only when the margin was computed
(the key is absent from calculated_margins otherwise). -/
def optEntry (key : String) (o : Option ℚ) : List (String × JVal) :=
  match o with
  | some q => [(key, JVal.n q)]
  | none => []

/-- The JSON object json.dumps produces for financial_data, as an
ordered key-value list (Python dicts and json.dumps preserve insertion
order). -/
def toTransport (d : FinancialData) : List (String × JVal) :=
  [("company_name", JVal.s d.company_name),
   ("ticker", JVal.s d.ticker),
   ("currency", JVal.s d.currency),
   ("fiscal_year_end", optS d.fiscal_year_end),
   ("market_cap", optN d.market_cap),
   ("enterprise_value", optN d.enterprise_value),
   ("annual_revenue", optN d.annual_revenue),
   ("cost_of_goods_sold", optN d.cost_of_goods_sold),
   ("gross_profit", optN d.gross_profit),
   ("operating_income", optN d.operating_income),
   ("net_income", optN d.net_income),
   ("interest_income", optN d.interest_income),
   ("interest_expense", optN d.interest_expense),
   ("net_interest_income", optN d.net_interest_income),
   ("total_expenses", optN d.total_expenses),
   ("operating_expenses", optN d.operating_expenses),
   ("ebitda", optN d.ebitda),
   ("ebit", optN d.ebit)]
  ++ optEntry "gross_profit_margin_percent" d.gross_profit_margin_percent
  ++ optEntry "operating_profit_margin_percent" d.operating_profit_margin_percent
  ++ optEntry "net_profit_margin_percent" d.net_profit_margin_percent
  ++ optEntry "ebitda_margin_percent" d.ebitda_margin_percent
  ++ [("yf_gross_margin_percent", optN d.yf_gross_margin_percent),
      ("yf_operating_margin_percent", optN d.yf_operating_margin_percent),
      ("yf_profit_margin_percent", optN d.yf_profit_margin_percent)]

/-- Key lookup in a JSON object. -/
def jget : List (String × JVal) → String → Option JVal
  | [], _ => none
  | (k, v) :: rest, key => if k = key then some v else jget rest key

/-- Reads a JSON scalar back as a number; null or a wrong type is
absent. -/
def jvalN : JVal → Option ℚ
  | JVal.n q => some q
  | _ => none

/-- Reads a JSON scalar back as a string; null or a wrong type is
absent. -/
def jvalS : JVal → Option String
  | JVal.s v => some v
  | _ => none

/-- Numeric field of a JSON object: absent key and null collapse to
none. -/
def getN (l : List (String × JVal)) (key : String) : Option ℚ := (jget l key).bind jvalN

/-- String field of a JSON object: absent key and null collapse to
none. -/
def getS (l : List (String × JVal)) (key : String) : Option String := (jget l key).bind jvalS

/-- Modelled from the spec: the deserialization direction of the
round-trip property (the source only serializes; reading the transport
form back is specified, not implemented in the repository).  Each field
is read back from its key; the three identity strings are required, and
a missing or null key yields an absent field. -/
def fromTransport (l : List (String × JVal)) : Option FinancialData :=
  match getS l "company_name", getS l "ticker", getS l "currency" with
  | some cn, some tk, some cur =>
    some
      { company_name := cn
        ticker := tk
        currency := cur
        fiscal_year_end := getS l "fiscal_year_end"
        market_cap := getN l "market_cap"
        enterprise_value := getN l "enterprise_value"
        annual_revenue := getN l "annual_revenue"
        cost_of_goods_sold := getN l "cost_of_goods_sold"
        gross_profit := getN l "gross_profit"
        operating_income := getN l "operating_income"
        net_income := getN l "net_income"
        interest_income := getN l "interest_income"
        interest_expense := getN l "interest_expense"
        net_interest_income := getN l "net_interest_income"
        total_expenses := getN l "total_expenses"
        operating_expenses := getN l "operating_expenses"
        ebitda := getN l "ebitda"
        ebit := getN l "ebit"
        gross_profit_margin_percent := getN l "gross_profit_margin_percent"
        operating_profit_margin_percent := getN l "operating_profit_margin_percent"
        net_profit_margin_percent := getN l "net_profit_margin_percent"
        ebitda_margin_percent := getN l "ebitda_margin_percent"
        yf_gross_margin_percent := getN l "yf_gross_margin_percent"
        yf_operating_margin_percent := getN l "yf_operating_margin_percent"
        yf_profit_margin_percent := getN l "yf_profit_margin_percent" }
  | _, _, _ => none

/-! ## get_company_financial_metrics: the function -/

/-- The success dictionary: summary, detailed_metrics, the serialized
json_data, and the fiscal_year echo (its status key is carried by the
FMResult constructor). -/
structure SuccessRecord where
  summary : Summary
  detailed_metrics : FinancialData
  json_data : List (String × JVal)
  fiscal_year : String
deriving DecidableEq

/-- Return shape of get_company_financial_metrics: the status error
dictionary with its error_message, or the status success dictionary. -/
inductive FMResult where
  | err (error_message : String)
  | ok (record : SuccessRecord)
deriving DecidableEq

/-- The not-found message (agent.py lines 280-283). -/
def noDataMsg (stock_ticker : String) : String :=
  "No financial data found for ticker \x27" ++ stock_ticker
    ++ "\x27. Please verify the ticker symbol is correct."

/-- Embeds get_company_financial_metrics.  The provider is the oracle
fetch, consulted at the uppercased ticker; a raising provider lands in
the blanket except branch; an empty income statement or an empty info
dict lands in the not-found branch; otherwise the record is built. -/
def get_company_financial_metrics (fetch : String → Fetched) (stock_ticker : String) : FMResult :=
  match fetch (pyUpper stock_ticker) with
  | Fetched.raise msg =>
    FMResult.err
      ("Unable to retrieve financial data for \x27" ++ stock_ticker ++ "\x27: " ++ msg)
  | Fetched.ok none _ _ => FMResult.err (noDataMsg stock_ticker)
  | Fetched.ok (some _) [] _ => FMResult.err (noDataMsg stock_ticker)
  | Fetched.ok (some i) (f :: fs) latest_year =>
    FMResult.ok
      { summary := buildSummary (buildFinancialData stock_ticker i (f :: fs) latest_year)
        detailed_metrics := buildFinancialData stock_ticker i (f :: fs) latest_year
        json_data := toTransport (buildFinancialData stock_ticker i (f :: fs) latest_year)
        fiscal_year := latest_year.getD "Unknown" }

/-- Projection: did the call succeed. -/
def FMResult.isOk : FMResult → Bool
  | FMResult.ok _ => true
  | FMResult.err _ => false

/-- Projection: the error message, when the call failed. -/
def FMResult.errMsg : FMResult → Option String
  | FMResult.err m => some m
  | FMResult.ok _ => none

/-- Projection: the detailed_metrics record, when the call succeeded. -/
def FMResult.metrics : FMResult → Option FinancialData
  | FMResult.ok r => some r.detailed_metrics
  | FMResult.err _ => none

/-- Projection: the formatted summary, when the call succeeded. -/
def FMResult.summaryOf : FMResult → Option Summary
  | FMResult.ok r => some r.summary
  | FMResult.err _ => none

/-! ## check_public_trading_status (agent.py lines 110-258) -/

/-- What ticker.info yields for a symbol probe: size models len(info),
hasSymbolKey models the membership test of the key symbol; a none
response models a falsy info.  Name and exchange keys feed the public
entry. -/
structure YfInfo where
  size : Nat := 1
  hasSymbolKey : Bool := false
  longName : Option String := none
  shortName : Option String := none
  exchange : Option String := none

/-- Outcome of one ticker.info read: an exception, or an info value
(none for a falsy one). -/
inductive YfResp where
  | raises (msg : String)
  | returns (info : Option YfInfo)

/-- One entry of detailed_results.  official_name and exchange are only
set in the publicly-traded branch, matching the dictionary shapes the
source appends. -/
structure TradeEntry where
  company : String
  is_public : Bool
  symbol : Option String
  official_name : Option String
  exchange : Option String
  status : String

/-- The symbol_mappings dictionary looked up with dict.get, which sends
a missing key and a key stored as None (pwc, kpmg, ey) alike to None. -/
def symbol_mappings (name : String) : Option String :=
  match name with
  | "oracle" => some "ORCL"
  | "microsoft" => some "MSFT"
  | "apple" => some "AAPL"
  | "google" => some "GOOGL"
  | "alphabet" => some "GOOGL"
  | "amazon" => some "AMZN"
  | "meta" => some "META"
  | "facebook" => some "META"
  | "nvidia" => some "NVDA"
  | "tesla" => some "TSLA"
  | "salesforce" => some "CRM"
  | "servicenow" => some "NOW"
  | "workday" => some "WDAY"
  | "adobe" => some "ADBE"
  | "intel" => some "INTC"
  | "ibm" => some "IBM"
  | "sap" => some "SAP"
  | "accenture" => some "ACN"
  | "deloitte" => some "DLX"
  | _ => none

/-- The three heuristic symbol guesses: first four letters, first three
letters, and first four letters with spaces removed, all uppercased. -/
def possible_symbols (company : String) : List String :=
  [(pyUpper company).take 4, (pyUpper company).take 3,
   (pyUpper (company.replace " " "")).take 4]

/-- The membership test against the known-private list. -/
def knownPrivate (company_lower : String) : Bool :=
  company_lower = "pwc" || company_lower = "kpmg" || company_lower = "ey"
    || company_lower = "ernst & young"

/-- The validation loop over the heuristic guesses: the first symbol
whose info is truthy and carries the key symbol wins; an exception or a
failed test moves on. -/
def findSymbol (env : String → YfResp) : List String → Option String
  | [] => none
  | s :: rest =>
    match env s with
    | YfResp.returns (some i) => if i.hasSymbolKey then some s else findSymbol env rest
    | _ => findSymbol env rest

/-- The final symbol check: a raising info read appends an error entry,
a falsy or single-key info appends a no-trading-data entry, a larger
info appends the publicly-traded entry with name and exchange
fallbacks. -/
def symbolCheck (env : String → YfResp) (company symbol : String) : TradeEntry :=
  match env symbol with
  | YfResp.raises msg =>
    { company := company, is_public := false, symbol := some symbol,
      official_name := none, exchange := none,
      status := "Error checking symbol " ++ symbol ++ ": " ++ msg }
  | YfResp.returns none =>
    { company := company, is_public := false, symbol := none,
      official_name := none, exchange := none,
      status := "Symbol exists but no trading data found" }
  | YfResp.returns (some i) =>
    if 1 < i.size then
      { company := company, is_public := true, symbol := some symbol,
        official_name := some (i.longName.getD (i.shortName.getD company)),
        exchange := some (i.exchange.getD "Unknown"),
        status := "Publicly traded" }
    else
      { company := company, is_public := false, symbol := none,
        official_name := none, exchange := none,
        status := "Symbol exists but no trading data found" }

/-- One loop iteration for a non-empty company name: mapping hit, known
private, heuristic hit, or no symbol found. -/
def processCompany (env : String → YfResp) (company : String) : TradeEntry :=
  match symbol_mappings (pyLower company) with
  | some symbol => symbolCheck env company symbol
  | none =>
    if knownPrivate (pyLower company) then
      { company := company, is_public := false, symbol := none,
        official_name := none, exchange := none, status := "Known private company" }
    else
      match findSymbol env (possible_symbols company) with
      | some symbol => symbolCheck env company symbol
      | none =>
        { company := company, is_public := false, symbol := none,
          official_name := none, exchange := none,
          status := "No public trading symbol found" }

/-- The results list of the main loop: empty names are skipped, every
other name appends exactly one entry. -/
def loopEntries (env : String → YfResp) : List String → List TradeEntry
  | [] => []
  | c :: rest =>
    if c = "" then loopEntries env rest
    else processCompany env c :: loopEntries env rest

/-- The report text assembled from the public and private partitions
(Python interpolates None as the text None). -/
def buildTradingReport (pubs privs : List TradeEntry) : String :=
  "Trading Status Analysis:\n\n"
    ++ (if pubs.isEmpty then ""
        else
          "📈 PUBLICLY TRADED COMPANIES:\n"
            ++ String.join (pubs.map fun c =>
                "• " ++ c.company ++ " (" ++ c.symbol.getD "None" ++ ") - "
                  ++ c.official_name.getD "None" ++ " on " ++ c.exchange.getD "None" ++ "\n")
            ++ "\n")
    ++ (if privs.isEmpty then ""
        else
          "🔒 NON-PUBLIC/PRIVATE COMPANIES:\n"
            ++ String.join (privs.map fun c => "• " ++ c.company ++ " - " ++ c.status ++ "\n"))

/-- The success dictionary of check_public_trading_status.  The outer
blanket except is unreachable in the embedding: every provider
exception is consumed by an inner handler, so status is always
success. -/
structure TradingStatusResult where
  status : String
  report : String
  detailed_results : List TradeEntry
  public_count : Nat
  private_count : Nat

/-- Embeds check_public_trading_status: split the input on commas, strip
each name, loop, partition, count. -/
def check_public_trading_status (env : String → YfResp) (company_names : String) :
    TradingStatusResult :=
  { status := "success"
    report :=
      buildTradingReport
        ((loopEntries env ((company_names.splitOn ",").map String.trim)).filter
          (fun r => r.is_public))
        ((loopEntries env ((company_names.splitOn ",").map String.trim)).filter
          (fun r => !r.is_public))
    detailed_results := loopEntries env ((company_names.splitOn ",").map String.trim)
    public_count :=
      ((loopEntries env ((company_names.splitOn ",").map String.trim)).filter
        (fun r => r.is_public)).length
    private_count :=
      ((loopEntries env ((company_names.splitOn ",").map String.trim)).filter
        (fun r => !r.is_public)).length }

/-! ## Shared lemmas -/

/-- safe_get_financial never reports a zero: a zero cell is falsy and
comes back as None. -/
theorem safe_get_financial_ne_some_zero (financials : List (String × Cell))
    (metric_name : String) : safe_get_financial financials metric_name ≠ some 0 := by
  cases h : lookupCell financials metric_name with
  | none => simp [safe_get_financial, h]
  | some c =>
    cases c with
    | num q =>
      by_cases hq : q = 0 <;> simp [safe_get_financial, h, hq]
    | nan => simp [safe_get_financial, h]
    | nonNum => simp [safe_get_financial, h]

/-- Reading a number scalar back gives the number. -/
@[simp] theorem jvalN_n (q : ℚ) : jvalN (JVal.n q) = some q := rfl

/-- Reading a string scalar back gives the string. -/
@[simp] theorem jvalS_s (v : String) : jvalS (JVal.s v) = some v := rfl

/-- Reading a serialized optional number back gives the number. -/
@[simp] theorem jvalN_optN (o : Option ℚ) : jvalN (optN o) = o := by cases o <;> rfl

/-- Reading a serialized optional string back gives the string. -/
@[simp] theorem jvalS_optS (o : Option String) : jvalS (optS o) = o := by cases o <;> rfl

/-- calcMargin yields a value exactly when the revenue is present and
positive and the numerator is present; the numerator hypothesis reflects
that safe_get_financial never returns a zero. -/
theorem calcMargin_some_iff (rev numerator : Option ℚ) (hnum : numerator ≠ some 0) (v : ℚ) :
    calcMargin rev numerator = some v ↔
      ∃ r, rev = some r ∧ 0 < r ∧ ∃ n, numerator = some n ∧ v = pyRound2 (n / r * 100) := by
  rcases rev with _ | r
  · simp [calcMargin]
  · rcases numerator with _ | n
    · simp [calcMargin]
    · by_cases hn : n = 0
      · exact absurd (hn ▸ rfl) hnum
      · by_cases hr : 0 < r
        · simp [calcMargin, hr, hn, eq_comm]
        · simp [calcMargin, hr]

/-- calcMargin is absent whenever the revenue is absent or not strictly
positive. -/
theorem calcMargin_none_of_bad_rev (rev numerator : Option ℚ)
    (h : rev = none ∨ ∃ r, rev = some r ∧ r ≤ 0) : calcMargin rev numerator = none := by
  rcases h with h | ⟨r, hr, hle⟩
  · simp [calcMargin, h]
  · subst hr
    simp [calcMargin, not_lt.mpr hle]

/-- calcMargin presence, as a bare isSome equivalence. -/
theorem calcMargin_isSome_iff (rev numerator : Option ℚ) (hnum : numerator ≠ some 0) :
    (calcMargin rev numerator).isSome = true ↔
      (∃ r, rev = some r ∧ 0 < r) ∧ numerator.isSome = true := by
  rcases rev with _ | r
  · simp [calcMargin]
  · rcases numerator with _ | n
    · simp [calcMargin]
    · by_cases hn : n = 0
      · exact absurd (hn ▸ rfl) hnum
      · by_cases hr : 0 < r
        · simp [calcMargin, hr, hn]
        · simp [calcMargin, hr]

/-- Concrete sample provider response used by witnesses. -/
def infoSample : InfoRec := {}

/-- Concrete sample income statement used by witnesses. -/
def finsSample : List (String × Cell) := [("Total Revenue", Cell.num 5)]

/-- Concrete constant provider used by witnesses. -/
def fetchSample : String → Fetched :=
  fun _ => Fetched.ok (some infoSample) finsSample (some "2024-12-31")

/-- The success record fetchSample produces. -/
def recSample : SuccessRecord :=
  { summary := buildSummary (buildFinancialData "aapl" infoSample finsSample (some "2024-12-31"))
    detailed_metrics := buildFinancialData "aapl" infoSample finsSample (some "2024-12-31")
    json_data := toTransport (buildFinancialData "aapl" infoSample finsSample (some "2024-12-31"))
    fiscal_year := "2024-12-31" }

/-! ## Claims -/

/-- C6: for every city string, get_weather returns the success payload
exactly when the input matches new york case-insensitively, so the two
spellings New York and new york give identical success payloads, and
every other city gets a status error result whose error_message contains
the requested city name. -/
theorem C6_weather_case_insensitive :
    (∀ city : String, pyLower city = "new york" →
      get_weather city = ToolReply.success
        "The weather in New York is sunny with a temperature of 25 degrees Celsius (77 degrees Fahrenheit).") ∧
    (∀ city : String, pyLower city ≠ "new york" →
      get_weather city =
        ToolReply.error ("Weather information for \x27" ++ city ++ "\x27 is not available.")) ∧
    get_weather "New York" = get_weather "new york" ∧
    get_weather "Paris" =
      ToolReply.error ("Weather information for \x27" ++ "Paris" ++ "\x27 is not available.") := by
  refine ⟨?_, ?_, ?_, ?_⟩
  · intro city h
    simp [get_weather, h]
  · intro city h
    simp [get_weather, h]
  · decide
  · decide

/-- Witness for C6 at the concrete cities new york and Paris. -/
theorem C6_witness :
    get_weather "new york" = ToolReply.success
        "The weather in New York is sunny with a temperature of 25 degrees Celsius (77 degrees Fahrenheit)." ∧
    get_weather "Paris" =
      ToolReply.error ("Weather information for \x27" ++ "Paris" ++ "\x27 is not available.") :=
  ⟨C6_weather_case_insensitive.1 "new york" (by decide),
   C6_weather_case_insensitive.2.1 "Paris" (by decide)⟩

/-- C5: for every line-item name, the extraction helper maps a missing
key, a value float() rejects, and a value whose str is the nan token to
an absent field, and it never reports a zero (totality of the embedding
models that it never raises). -/
theorem C5_safe_get_absent (financials : List (String × Cell)) (metric_name : String) :
    (lookupCell financials metric_name = none →
      safe_get_financial financials metric_name = none) ∧
    (lookupCell financials metric_name = some Cell.nan →
      safe_get_financial financials metric_name = none) ∧
    (lookupCell financials metric_name = some Cell.nonNum →
      safe_get_financial financials metric_name = none) ∧
    safe_get_financial financials metric_name ≠ some 0 := by
  refine ⟨?_, ?_, ?_, safe_get_financial_ne_some_zero financials metric_name⟩ <;>
    · intro h
      simp [safe_get_financial, h]

/-- Witness for C5 at a concrete table exercising all three absent
shapes. -/
theorem C5_witness :
    safe_get_financial [("EBITDA", Cell.nan), ("EBIT", Cell.nonNum)] "Gross Profit" = none ∧
    safe_get_financial [("EBITDA", Cell.nan), ("EBIT", Cell.nonNum)] "EBITDA" = none ∧
    safe_get_financial [("EBITDA", Cell.nan), ("EBIT", Cell.nonNum)] "EBIT" = none ∧
    safe_get_financial [("EBITDA", Cell.nan), ("EBIT", Cell.nonNum)] "Total Revenue" ≠ some 0 :=
  ⟨(C5_safe_get_absent _ "Gross Profit").1 (by decide),
   (C5_safe_get_absent _ "EBITDA").2.1 (by decide),
   (C5_safe_get_absent _ "EBIT").2.2.1 (by decide),
   (C5_safe_get_absent _ "Total Revenue").2.2.2⟩

/-- C9: a line item stored as exactly 0 is extracted as an absent field,
indistinguishable from a missing item, and in particular a Total Revenue
of 0 makes annual_revenue fall through to the attributes-mapping
fallback, both in the annual-revenue computation and in the built
record. -/
theorem C9_zero_is_absent :
    (∀ financials metric_name, lookupCell financials metric_name = some (Cell.num 0) →
      safe_get_financial financials metric_name = none) ∧
    (∀ financials i, lookupCell financials "Total Revenue" = some (Cell.num 0) →
      annualRevenueOf financials i = i.totalRevenue) ∧
    (∀ t i financials ly, lookupCell financials "Total Revenue" = some (Cell.num 0) →
      (buildFinancialData t i financials ly).annual_revenue = i.totalRevenue) := by
  have hz : ∀ financials metric_name,
      lookupCell financials metric_name = some (Cell.num 0) →
      safe_get_financial financials metric_name = none := by
    intro financials metric_name h
    simp [safe_get_financial, h]
  refine ⟨hz, ?_, ?_⟩
  · intro financials i h
    simp [annualRevenueOf, hz financials "Total Revenue" h, pyOr]
  · intro t i financials ly h
    simp [buildFinancialData, annualRevenueOf, hz financials "Total Revenue" h, pyOr]

/-- Witness for C9: a zero Total Revenue cell falls through to the info
fallback value 123. -/
theorem C9_witness :
    safe_get_financial [("Total Revenue", Cell.num 0)] "Total Revenue" = none ∧
    annualRevenueOf [("Total Revenue", Cell.num 0)] { totalRevenue := some 123 } = some 123 ∧
    (buildFinancialData "T" { totalRevenue := some 123 }
        [("Total Revenue", Cell.num 0)] none).annual_revenue = some 123 :=
  ⟨C9_zero_is_absent.1 _ "Total Revenue" (by decide),
   C9_zero_is_absent.2.1 _ { totalRevenue := some 123 } (by decide),
   C9_zero_is_absent.2.2 "T" { totalRevenue := some 123 } _ none (by decide)⟩

/-- C4: an empty income-statement table or an empty attributes mapping
produces the status error result whose error_message names the input
ticker, and for every provider behavior the function returns one of the
two status dictionary shapes (the embedding is total: every provider
exception is caught). -/
theorem C4_not_found_and_total :
    (∀ (fetch : String → Fetched) (t : String) info fins ly,
      fetch (pyUpper t) = Fetched.ok info fins ly → (fins = [] ∨ info = none) →
      get_company_financial_metrics fetch t = FMResult.err (noDataMsg t)) ∧
    (∀ t : String, noDataMsg t =
      "No financial data found for ticker \x27" ++ t
        ++ "\x27. Please verify the ticker symbol is correct.") ∧
    (∀ (fetch : String → Fetched) (t : String),
      (∃ m, get_company_financial_metrics fetch t = FMResult.err m) ∨
      (∃ r, get_company_financial_metrics fetch t = FMResult.ok r)) := by
  refine ⟨?_, fun _ => rfl, ?_⟩
  · intro fetch t info fins ly hf hcase
    rcases info with _ | i
    · simp [get_company_financial_metrics, hf]
    · rcases fins with _ | ⟨f0, fs⟩
      · simp [get_company_financial_metrics, hf]
      · rcases hcase with h | h <;> simp at h
  · intro fetch t
    cases h : fetch (pyUpper t) with
    | raise m =>
      exact Or.inl ⟨"Unable to retrieve financial data for \x27" ++ t ++ "\x27: " ++ m,
        by simp [get_company_financial_metrics, h]⟩
    | ok info fins ly =>
      rcases info with _ | i
      · exact Or.inl ⟨noDataMsg t, by simp [get_company_financial_metrics, h]⟩
      · rcases fins with _ | ⟨f0, fs⟩
        · exact Or.inl ⟨noDataMsg t, by simp [get_company_financial_metrics, h]⟩
        · exact Or.inr
            ⟨{ summary := buildSummary (buildFinancialData t i (f0 :: fs) ly),
               detailed_metrics := buildFinancialData t i (f0 :: fs) ly,
               json_data := toTransport (buildFinancialData t i (f0 :: fs) ly),
               fiscal_year := ly.getD "Unknown" },
             by simp [get_company_financial_metrics, h]⟩

/-- Witness for C4 at the nonexistent ticker ZZZZ: the provider returns
an empty table, and the result is the error naming ZZZZ. -/
theorem C4_witness :
    get_company_financial_metrics (fun _ => Fetched.ok (some infoSample) [] none) "ZZZZ" =
      FMResult.err (noDataMsg "ZZZZ") ∧
    noDataMsg "ZZZZ" =
      "No financial data found for ticker \x27" ++ "ZZZZ"
        ++ "\x27. Please verify the ticker symbol is correct." :=
  ⟨C4_not_found_and_total.1 (fun _ => Fetched.ok (some infoSample) [] none) "ZZZZ"
      (some infoSample) [] none rfl (Or.inl rfl),
   C4_not_found_and_total.2.1 "ZZZZ"⟩

/-- C8: the provider lookup happens at the uppercased ticker (the result
depends on the provider only through its value there), and on success
both the ticker identity field of the metrics record and the ticker of
the summary equal the uppercased input. -/
theorem C8_uppercase_normalization :
    (∀ (f g : String → Fetched) (t : String), f (pyUpper t) = g (pyUpper t) →
      get_company_financial_metrics f t = get_company_financial_metrics g t) ∧
    (∀ (f : String → Fetched) (t : String) rec,
      get_company_financial_metrics f t = FMResult.ok rec →
      rec.detailed_metrics.ticker = pyUpper t ∧ rec.summary.ticker = pyUpper t) := by
  constructor
  · intro f g t h
    unfold get_company_financial_metrics
    rw [h]
  · intro f t rec hok
    cases h : f (pyUpper t) with
    | raise m => simp [get_company_financial_metrics, h] at hok
    | ok info fins ly =>
      rcases info with _ | i
      · simp [get_company_financial_metrics, h] at hok
      · rcases fins with _ | ⟨f0, fs⟩
        · simp [get_company_financial_metrics, h] at hok
        · simp [get_company_financial_metrics, h] at hok
          rw [← hok]
          exact ⟨by simp [buildFinancialData], by simp [buildSummary, buildFinancialData]⟩

/-- Witness for C8 at the lowercase input aapl with the sample
provider. -/
theorem C8_witness :
    get_company_financial_metrics fetchSample "aapl" =
      get_company_financial_metrics (fun s => fetchSample s) "aapl" ∧
    recSample.detailed_metrics.ticker = pyUpper "aapl" ∧
    recSample.summary.ticker = pyUpper "aapl" :=
  ⟨C8_uppercase_normalization.1 fetchSample (fun s => fetchSample s) "aapl" rfl,
   C8_uppercase_normalization.2 fetchSample "aapl" recSample rfl⟩

set_option maxHeartbeats 2000000 in
/-- C7: serializing a financial_data record to the transport form and
reading it back preserves every field exactly: present fields keep their
exact value (numbers are exact rationals in the model, matching the
lossless shortest-repr round-trip of JSON floats), absent derived-margin
keys stay absent, and null-valued keys stay absent.  The decoder is the
spec-side direction of the round-trip. -/
theorem C7_transport_roundtrip (d : FinancialData) :
    fromTransport (toTransport d) = some d := by
  obtain ⟨cn, tk, cur, fye, mc, ev, ar, cogs, gp, oi, ni, ii, ie, nii, te, oe, ebd, ebi,
    gpm, opm, npm, ebm, yg, yo, yp⟩ := d
  cases gpm <;> cases opm <;> cases npm <;> cases ebm <;>
  · simp only [toTransport, fromTransport, optEntry, getN, getS, jget, List.cons_append,
      List.nil_append]
    simp

/-- C2: on every success, each of the four derived margins is present
exactly when the annual revenue of the record is present and strictly
positive and the corresponding numerator field is present, and its value
is then round(numerator / revenue * 100, 2). -/
theorem C2_derived_margins (f : String → Fetched) (t : String) (rec : SuccessRecord)
    (hok : get_company_financial_metrics f t = FMResult.ok rec) :
    (∀ v, rec.detailed_metrics.gross_profit_margin_percent = some v ↔
      ∃ r, rec.detailed_metrics.annual_revenue = some r ∧ 0 < r ∧
        ∃ n, rec.detailed_metrics.gross_profit = some n ∧ v = pyRound2 (n / r * 100)) ∧
    (∀ v, rec.detailed_metrics.operating_profit_margin_percent = some v ↔
      ∃ r, rec.detailed_metrics.annual_revenue = some r ∧ 0 < r ∧
        ∃ n, rec.detailed_metrics.operating_income = some n ∧ v = pyRound2 (n / r * 100)) ∧
    (∀ v, rec.detailed_metrics.net_profit_margin_percent = some v ↔
      ∃ r, rec.detailed_metrics.annual_revenue = some r ∧ 0 < r ∧
        ∃ n, rec.detailed_metrics.net_income = some n ∧ v = pyRound2 (n / r * 100)) ∧
    (∀ v, rec.detailed_metrics.ebitda_margin_percent = some v ↔
      ∃ r, rec.detailed_metrics.annual_revenue = some r ∧ 0 < r ∧
        ∃ n, rec.detailed_metrics.ebitda = some n ∧ v = pyRound2 (n / r * 100)) := by
  cases h : f (pyUpper t) with
  | raise m => simp [get_company_financial_metrics, h] at hok
  | ok info fins ly =>
    rcases info with _ | i
    · simp [get_company_financial_metrics, h] at hok
    · rcases fins with _ | ⟨f0, fs⟩
      · simp [get_company_financial_metrics, h] at hok
      · simp only [get_company_financial_metrics, h, FMResult.ok.injEq] at hok
        rw [← hok]
        refine ⟨?_, ?_, ?_, ?_⟩ <;>
        · intro v
          simp only [buildFinancialData]
          exact calcMargin_some_iff _ _ (safe_get_financial_ne_some_zero _ _) v

/-- Concrete sample with revenue 200 and gross profit 50 used by the C2
witness: the gross margin comes out as 25. -/
def finsSample2 : List (String × Cell) :=
  [("Total Revenue", Cell.num 200), ("Gross Profit", Cell.num 50)]

/-- Constant provider for the C2 witness. -/
def fetchSample2 : String → Fetched :=
  fun _ => Fetched.ok (some infoSample) finsSample2 (some "2023-06-30")

/-- The success record fetchSample2 produces. -/
def recSample2 : SuccessRecord :=
  { summary := buildSummary (buildFinancialData "MSFT" infoSample finsSample2 (some "2023-06-30"))
    detailed_metrics := buildFinancialData "MSFT" infoSample finsSample2 (some "2023-06-30")
    json_data := toTransport (buildFinancialData "MSFT" infoSample finsSample2 (some "2023-06-30"))
    fiscal_year := "2023-06-30" }

/-- Witness for C2 at the sample with revenue 200 and gross profit 50,
instantiated at the margin value 25. -/
theorem C2_witness :
    recSample2.detailed_metrics.gross_profit_margin_percent = some 25 ↔
      ∃ r, recSample2.detailed_metrics.annual_revenue = some r ∧ 0 < r ∧
        ∃ n, recSample2.detailed_metrics.gross_profit = some n ∧
          (25 : ℚ) = pyRound2 (n / r * 100) :=
  (C2_derived_margins fetchSample2 "MSFT" recSample2 rfl).1 25

/-- Income statement with a gross profit but no revenue anywhere, and an
info dict carrying a provider-precomputed gross margin ratio: the input
that separates derived from provider-supplied margins. -/
def finsNoRev : List (String × Cell) := [("Gross Profit", Cell.num 5)]

/-- Info dict with grossMargins 0.5 and no totalRevenue. -/
def infoYf : InfoRec := { grossMargins := some (1/2) }

/-- Constant provider for the C1 counterexample. -/
def fetchNoRev : String → Fetched := fun _ => Fetched.ok (some infoYf) finsNoRev none

/-- The success record fetchNoRev produces. -/
def recNoRev : SuccessRecord :=
  { summary := buildSummary (buildFinancialData "TEST" infoYf finsNoRev none)
    detailed_metrics := buildFinancialData "TEST" infoYf finsNoRev none
    json_data := toTransport (buildFinancialData "TEST" infoYf finsNoRev none)
    fiscal_year := "Unknown" }

/-- The annual revenue of the C1 counterexample record is absent. -/
theorem recNoRev_annual_revenue_none : recNoRev.detailed_metrics.annual_revenue = none := by
  simp [recNoRev, buildFinancialData, annualRevenueOf, safe_get_financial, lookupCell, pyOr,
    infoYf]

/-- C1 counterexample: the claim covers provider-supplied margins too,
but the code keeps a yf margin whose info ratio is truthy even when the
annual-revenue denominator is absent: with no revenue anywhere and
grossMargins 0.5, the success record carries yf_gross_margin_percent
50. -/
theorem C1_counterexample :
    ¬ (∀ (f : String → Fetched) (t : String) rec,
        get_company_financial_metrics f t = FMResult.ok rec →
        (rec.detailed_metrics.annual_revenue = none ∨
          ∃ r, rec.detailed_metrics.annual_revenue = some r ∧ r ≤ 0) →
        rec.detailed_metrics.gross_profit_margin_percent = none ∧
        rec.detailed_metrics.operating_profit_margin_percent = none ∧
        rec.detailed_metrics.net_profit_margin_percent = none ∧
        rec.detailed_metrics.ebitda_margin_percent = none ∧
        rec.detailed_metrics.yf_gross_margin_percent = none ∧
        rec.detailed_metrics.yf_operating_margin_percent = none ∧
        rec.detailed_metrics.yf_profit_margin_percent = none) := by
  intro hclaim
  have h :=
    (hclaim fetchNoRev "TEST" recNoRev rfl (Or.inl recNoRev_annual_revenue_none)).2.2.2.2.1
  rw [show recNoRev.detailed_metrics.yf_gross_margin_percent = yfMargin (some (1/2)) from rfl]
    at h
  norm_num [yfMargin] at h
  exact Option.noConfusion h

/-- C1 amended: restricted to the four derived margins the claim holds:
no derived margin survives an absent or nonpositive annual revenue, and
a derived margin is present exactly when the annual revenue is present
and strictly positive and its numerator field is present.  The
provider-supplied yf margin fields are exempt: they depend only on the
provider ratio being truthy. -/
theorem C1_amended_derived_margins (f : String → Fetched) (t : String) (rec : SuccessRecord)
    (hok : get_company_financial_metrics f t = FMResult.ok rec) :
    ((rec.detailed_metrics.annual_revenue = none ∨
        ∃ r, rec.detailed_metrics.annual_revenue = some r ∧ r ≤ 0) →
      rec.detailed_metrics.gross_profit_margin_percent = none ∧
      rec.detailed_metrics.operating_profit_margin_percent = none ∧
      rec.detailed_metrics.net_profit_margin_percent = none ∧
      rec.detailed_metrics.ebitda_margin_percent = none) ∧
    ((rec.detailed_metrics.gross_profit_margin_percent).isSome = true ↔
      (∃ r, rec.detailed_metrics.annual_revenue = some r ∧ 0 < r) ∧
        (rec.detailed_metrics.gross_profit).isSome = true) ∧
    ((rec.detailed_metrics.operating_profit_margin_percent).isSome = true ↔
      (∃ r, rec.detailed_metrics.annual_revenue = some r ∧ 0 < r) ∧
        (rec.detailed_metrics.operating_income).isSome = true) ∧
    ((rec.detailed_metrics.net_profit_margin_percent).isSome = true ↔
      (∃ r, rec.detailed_metrics.annual_revenue = some r ∧ 0 < r) ∧
        (rec.detailed_metrics.net_income).isSome = true) ∧
    ((rec.detailed_metrics.ebitda_margin_percent).isSome = true ↔
      (∃ r, rec.detailed_metrics.annual_revenue = some r ∧ 0 < r) ∧
        (rec.detailed_metrics.ebitda).isSome = true) := by
  cases h : f (pyUpper t) with
  | raise m => simp [get_company_financial_metrics, h] at hok
  | ok info fins ly =>
    rcases info with _ | i
    · simp [get_company_financial_metrics, h] at hok
    · rcases fins with _ | ⟨f0, fs⟩
      · simp [get_company_financial_metrics, h] at hok
      · simp only [get_company_financial_metrics, h, FMResult.ok.injEq] at hok
        rw [← hok]
        refine ⟨?_, ?_, ?_, ?_, ?_⟩
        · intro hbad
          simp only [buildFinancialData] at hbad ⊢
          exact ⟨calcMargin_none_of_bad_rev _ _ hbad, calcMargin_none_of_bad_rev _ _ hbad,
            calcMargin_none_of_bad_rev _ _ hbad, calcMargin_none_of_bad_rev _ _ hbad⟩
        all_goals
          simp only [buildFinancialData]
          exact calcMargin_isSome_iff _ _ (safe_get_financial_ne_some_zero _ _)

/-- Witness for C1: with no revenue anywhere the four derived margins of
the counterexample record are all absent. -/
theorem C1_witness :
    recNoRev.detailed_metrics.gross_profit_margin_percent = none ∧
    recNoRev.detailed_metrics.operating_profit_margin_percent = none ∧
    recNoRev.detailed_metrics.net_profit_margin_percent = none ∧
    recNoRev.detailed_metrics.ebitda_margin_percent = none :=
  (C1_amended_derived_margins fetchNoRev "TEST" recNoRev rfl).1
    (Or.inl recNoRev_annual_revenue_none)

/-- Income statement with revenue 100000 and gross profit 1: the gross
margin is 0.001 percent and rounds to 0.0, which is stored in the record
but falsy for the summary rendering. -/
def finsTiny : List (String × Cell) :=
  [("Total Revenue", Cell.num 100000), ("Gross Profit", Cell.num 1)]

/-- Constant provider for the C3 counterexample. -/
def fetchTiny : String → Fetched :=
  fun _ => Fetched.ok (some infoSample) finsTiny (some "2024-12-31")

/-- The success record fetchTiny produces. -/
def recTiny : SuccessRecord :=
  { summary := buildSummary (buildFinancialData "TEST" infoSample finsTiny (some "2024-12-31"))
    detailed_metrics := buildFinancialData "TEST" infoSample finsTiny (some "2024-12-31")
    json_data := toTransport (buildFinancialData "TEST" infoSample finsTiny (some "2024-12-31"))
    fiscal_year := "2024-12-31" }

/-- The gross profit of the tiny sample is extracted as 1. -/
theorem finsTiny_gross_profit : safe_get_financial finsTiny "Gross Profit" = some 1 := by
  simp [safe_get_financial, lookupCell, finsTiny]

/-- The annual revenue of the tiny sample is 100000. -/
theorem finsTiny_revenue : annualRevenueOf finsTiny infoSample = some 100000 := by
  simp [annualRevenueOf, safe_get_financial, lookupCell, finsTiny, pyOr, infoSample]

/-- The tiny gross margin rounds to zero. -/
theorem tiny_margin_zero : pyRound2 ((1 : ℚ) / 1000) = 0 := by
  norm_num [pyRound2, halfEven]

/-- The tiny record stores the gross margin key with value 0. -/
theorem recTiny_margin_present :
    recTiny.detailed_metrics.gross_profit_margin_percent = some 0 := by
  simp only [recTiny, buildFinancialData, finsTiny_revenue, finsTiny_gross_profit]
  norm_num [calcMargin, tiny_margin_zero]

/-- The tiny record renders its gross margin as N/A. -/
theorem recTiny_margin_rendered_NA : recTiny.summary.gross_margin = "N/A" := by
  simp only [recTiny, buildSummary, buildFinancialData, finsTiny_revenue, finsTiny_gross_profit]
  norm_num [calcMargin, tiny_margin_zero, pctField]

/-- C3 counterexample: the percentage clause fails on the code: a margin
that is present in the record with rounded value 0.0 is falsy for the
summary and renders as N/A instead of 0.0 percent (revenue 100000, gross
profit 1). -/
theorem C3_counterexample :
    ¬ (∀ (f : String → Fetched) (t : String) rec,
        get_company_financial_metrics f t = FMResult.ok rec →
        ∀ v, rec.detailed_metrics.gross_profit_margin_percent = some v →
          rec.summary.gross_margin = reprFloat2 v ++ "%") := by
  intro hclaim
  have h := hclaim fetchTiny "TEST" recTiny rfl 0 recTiny_margin_present
  rw [recTiny_margin_rendered_NA] at h
  have hz : halfEven ((0 : ℚ) * 100) = 0 := by norm_num [halfEven]
  rw [show reprFloat2 (0 : ℚ) = reprFloat2i (halfEven ((0 : ℚ) * 100)) from rfl, hz] at h
  exact absurd h (by decide)

/-- The T bucket of the currency formatter. -/
theorem format_currency_bucket_T (q : ℚ) (h : 10^12 ≤ |q|) :
    format_currency (some q) = "$" ++ fmt2f (q / 10^12) ++ "T" := by
  simp only [format_currency]
  rw [if_pos h]

/-- The B bucket of the currency formatter. -/
theorem format_currency_bucket_B (q : ℚ) (h1 : 10^9 ≤ |q|) (h2 : |q| < 10^12) :
    format_currency (some q) = "$" ++ fmt2f (q / 10^9) ++ "B" := by
  simp only [format_currency]
  rw [if_neg (not_le.mpr h2), if_pos h1]

/-- The M bucket of the currency formatter. -/
theorem format_currency_bucket_M (q : ℚ) (h1 : 10^6 ≤ |q|) (h2 : |q| < 10^9) :
    format_currency (some q) = "$" ++ fmt2f (q / 10^6) ++ "M" := by
  have h12 : |q| < 10^12 := h2.trans (by norm_num)
  simp only [format_currency]
  rw [if_neg (not_le.mpr h12), if_neg (not_le.mpr h2), if_pos h1]

/-- The K bucket of the currency formatter. -/
theorem format_currency_bucket_K (q : ℚ) (h1 : 10^3 ≤ |q|) (h2 : |q| < 10^6) :
    format_currency (some q) = "$" ++ fmt2f (q / 10^3) ++ "K" := by
  have h9 : |q| < 10^9 := h2.trans (by norm_num)
  have h12 : |q| < 10^12 := h2.trans (by norm_num)
  simp only [format_currency]
  rw [if_neg (not_le.mpr h12), if_neg (not_le.mpr h9), if_neg (not_le.mpr h2), if_pos h1]

/-- The plain bucket of the currency formatter. -/
theorem format_currency_bucket_plain (q : ℚ) (h : |q| < 10^3) :
    format_currency (some q) = "$" ++ fmt2f q := by
  have h6 : |q| < 10^6 := h.trans (by norm_num)
  have h9 : |q| < 10^9 := h.trans (by norm_num)
  have h12 : |q| < 10^12 := h.trans (by norm_num)
  simp only [format_currency]
  rw [if_neg (not_le.mpr h12), if_neg (not_le.mpr h9), if_neg (not_le.mpr h6),
    if_neg (not_le.mpr h)]

/-- Exactly one trillion renders as 1.00. -/
theorem fmt2f_one_T : fmt2f ((10^12 : ℚ) / 10^12) = "1.00" := by
  have h : ((10^12 : ℚ) / 10^12) = 1 := by norm_num
  rw [h]
  have h1 : halfEven ((1 : ℚ) * 100) = 100 := by norm_num [halfEven]
  have h2 : decide ((1 : ℚ) < 0) = false := by
    simp only [decide_eq_false_iff_not]
    norm_num
  simp only [fmt2f, h1, h2]
  decide

/-- 999999999999 over a billion renders as 1000.00. -/
theorem fmt2f_billions : fmt2f ((999999999999 : ℚ) / 10^9) = "1000.00" := by
  have h1 : halfEven ((999999999999 : ℚ) / 10^9 * 100) = 100000 := by norm_num [halfEven]
  have h2 : decide ((999999999999 : ℚ) / 10^9 < 0) = false := by
    simp only [decide_eq_false_iff_not]
    norm_num
  simp only [fmt2f, h1, h2]
  decide

/-- C3 amended: the currency formatter buckets select by magnitude
(absolute value) exactly as specified, exactly 1e12 formats as $1.00T,
999999999999 formats as $1000.00B, and null formats as N/A; the
percentage fields render the margin value with a percent sign when the
margin is present and nonzero, but N/A both when the margin is absent
and when a present margin equals 0.0 (the counterexample forces the
extra zero case: Python truthiness conflates a stored 0.0 with a missing
key). -/
theorem C3_amended_formatter :
    format_currency none = "N/A" ∧
    format_currency (some (10^12)) = "$1.00T" ∧
    format_currency (some 999999999999) = "$1000.00B" ∧
    (∀ q : ℚ, 10^12 ≤ |q| → format_currency (some q) = "$" ++ fmt2f (q / 10^12) ++ "T") ∧
    (∀ q : ℚ, 10^9 ≤ |q| → |q| < 10^12 →
      format_currency (some q) = "$" ++ fmt2f (q / 10^9) ++ "B") ∧
    (∀ q : ℚ, 10^6 ≤ |q| → |q| < 10^9 →
      format_currency (some q) = "$" ++ fmt2f (q / 10^6) ++ "M") ∧
    (∀ q : ℚ, 10^3 ≤ |q| → |q| < 10^6 →
      format_currency (some q) = "$" ++ fmt2f (q / 10^3) ++ "K") ∧
    (∀ q : ℚ, |q| < 10^3 → format_currency (some q) = "$" ++ fmt2f q) ∧
    pctField none = "N/A" ∧
    pctField (some 0) = "N/A" ∧
    (∀ q : ℚ, q ≠ 0 → pctField (some q) = reprFloat2 q ++ "%") := by
  refine ⟨rfl, ?_, ?_, format_currency_bucket_T, format_currency_bucket_B,
    format_currency_bucket_M, format_currency_bucket_K, format_currency_bucket_plain,
    rfl, by norm_num [pctField], ?_⟩
  · rw [format_currency_bucket_T (10^12) (by rw [abs_of_pos (by norm_num)]), fmt2f_one_T]
    decide
  · have habs : |(999999999999 : ℚ)| = 999999999999 := abs_of_pos (by norm_num)
    rw [format_currency_bucket_B 999999999999 (by rw [habs]; norm_num)
        (by rw [habs]; norm_num),
      fmt2f_billions]
    decide
  · intro q h
    simp [pctField, h]

/-- Witness for C3 at two trillion and at a margin of 25. -/
theorem C3_witness :
    format_currency (some ((2 : ℚ) * 10^12)) = "$" ++ fmt2f ((2 : ℚ) * 10^12 / 10^12) ++ "T" ∧
    pctField (some 25) = reprFloat2 25 ++ "%" :=
  ⟨C3_amended_formatter.2.2.2.1 ((2 : ℚ) * 10^12)
      (by rw [abs_of_pos (by norm_num : (0 : ℚ) < 2 * 10^12)]; norm_num),
   C3_amended_formatter.2.2.2.2.2.2.2.2.2.2 25 (by norm_num)⟩

/-- Every branch of the per-company loop body echoes the company name it
was given. -/
theorem processCompany_company (env : String → YfResp) (c : String) :
    (processCompany env c).company = c := by
  unfold processCompany symbolCheck
  repeat' (first | rfl | split)

/-- The loop produces exactly one entry per non-empty name, carrying
that name. -/
theorem loopEntries_map_company (env : String → YfResp) (cs : List String) :
    (loopEntries env cs).map TradeEntry.company = cs.filter (fun c => !(c == "")) := by
  induction cs with
  | nil => rfl
  | cons c rest ih =>
    by_cases h : c = ""
    · simp [loopEntries, h, ih]
    · simp [loopEntries, h, ih, processCompany_company]

/-- The two boolean filters partition a list of entries. -/
theorem filter_is_public_partition (l : List TradeEntry) :
    (l.filter fun r => r.is_public).length + (l.filter fun r => !r.is_public).length =
      l.length := by
  induction l with
  | nil => rfl
  | cons a t ih =>
    by_cases h : a.is_public <;> simp [List.filter_cons, h] <;> omega

/-- C10: on every result of check_public_trading_status (always a
success in the embedding: each provider exception is consumed by an
inner handler), each non-empty trimmed name of the comma-separated input
contributes exactly one entry to detailed_results carrying that name,
every entry holds a boolean is_public (enforced by the entry type), and
public_count plus private_count equals the number of entries. -/
theorem C10_trading_status_invariants (env : String → YfResp) (company_names : String) :
    (check_public_trading_status env company_names).status = "success" ∧
    (check_public_trading_status env company_names).detailed_results.map TradeEntry.company =
      ((company_names.splitOn ",").map String.trim).filter (fun c => !(c == "")) ∧
    (check_public_trading_status env company_names).public_count +
        (check_public_trading_status env company_names).private_count =
      (check_public_trading_status env company_names).detailed_results.length := by
  refine ⟨rfl, ?_, ?_⟩
  · simp only [check_public_trading_status]
    exact loopEntries_map_company env _
  · simp only [check_public_trading_status]
    exact filter_is_public_partition _

end AIHype
